import Mathlib

/-!
Verification of the wildberry alert bot (`wildberry_alert_bot.py`).

The development shallowly embeds the bot's data model and pipeline:
the `Advert` record, per-crawler identity derivation (including a full
MD5 implementation over natural numbers, since several crawlers derive
ids as truncated MD5 hex digests), the keyword pattern set, the
Telegram notification wrapper `tg`, and the coordinator `run_once`
(seen-set loading, dedup-and-notify loop, timestamp gating,
seen-set persistence).
-/

namespace WildBerry

/-- The `Advert` dataclass of the source: id, platform tag, title,
price and canonical URL. -/
structure Advert where
  adv_id : String
  platform : String
  title : String
  price : String
  url : String
deriving DecidableEq, Repr

/-! ## MD5 over natural numbers

Several crawlers compute `hashlib.md5(link.encode()).hexdigest()[:12]`.
We embed MD5 (RFC 1321) with 32-bit words represented as `Nat` values
reduced modulo `2 ^ 32`, operating on the UTF-8 bytes of the input
string. -/

/-- UTF-8 encoding of a single character as a list of byte values,
mirroring Python's `str.encode()` for each code point. -/
def utf8Char (c : Char) : List Nat :=
  let n := c.toNat
  if n < 0x80 then [n]
  else if n < 0x800 then
    [0xC0 ||| (n >>> 6), 0x80 ||| (n &&& 0x3F)]
  else if n < 0x10000 then
    [0xE0 ||| (n >>> 12), 0x80 ||| ((n >>> 6) &&& 0x3F), 0x80 ||| (n &&& 0x3F)]
  else
    [0xF0 ||| (n >>> 18), 0x80 ||| ((n >>> 12) &&& 0x3F),
     0x80 ||| ((n >>> 6) &&& 0x3F), 0x80 ||| (n &&& 0x3F)]

/-- UTF-8 encoding of a string, as Python's `str.encode()`. -/
def utf8 (s : String) : List Nat :=
  s.toList.flatMap utf8Char

/-- The 32-bit mask. -/
def mask32 : Nat := 0xFFFFFFFF

/-- Bitwise complement within 32 bits. -/
def mnot (x : Nat) : Nat := mask32 ^^^ x

/-- Left-rotation of a 32-bit word. -/
def rotl32 (x c : Nat) : Nat :=
  ((x <<< c) ||| (x >>> (32 - c))) &&& mask32

/-- The 64 MD5 sine-derived round constants (RFC 1321 table T). -/
def md5K : List Nat :=
  [0xd76aa478, 0xe8c7b756, 0x242070db, 0xc1bdceee,
   0xf57c0faf, 0x4787c62a, 0xa8304613, 0xfd469501,
   0x698098d8, 0x8b44f7af, 0xffff5bb1, 0x895cd7be,
   0x6b901122, 0xfd987193, 0xa679438e, 0x49b40821,
   0xf61e2562, 0xc040b340, 0x265e5a51, 0xe9b6c7aa,
   0xd62f105d, 0x02441453, 0xd8a1e681, 0xe7d3fbc8,
   0x21e1cde6, 0xc33707d6, 0xf4d50d87, 0x455a14ed,
   0xa9e3e905, 0xfcefa3f8, 0x676f02d9, 0x8d2a4c8a,
   0xfffa3942, 0x8771f681, 0x6d9d6122, 0xfde5380c,
   0xa4beea44, 0x4bdecfa9, 0xf6bb4b60, 0xbebfbc70,
   0x289b7ec6, 0xeaa127fa, 0xd4ef3085, 0x04881d05,
   0xd9d4d039, 0xe6db99e5, 0x1fa27cf8, 0xc4ac5665,
   0xf4292244, 0x432aff97, 0xab9423a7, 0xfc93a039,
   0x655b59c3, 0x8f0ccc92, 0xffeff47d, 0x85845dd1,
   0x6fa87e4f, 0xfe2ce6e0, 0xa3014314, 0x4e0811a1,
   0xf7537e82, 0xbd3af235, 0x2ad7d2bb, 0xeb86d391]

/-- The 64 per-round left-rotation amounts. -/
def md5S : List Nat :=
  [7, 12, 17, 22, 7, 12, 17, 22, 7, 12, 17, 22, 7, 12, 17, 22,
   5, 9, 14, 20, 5, 9, 14, 20, 5, 9, 14, 20, 5, 9, 14, 20,
   4, 11, 16, 23, 4, 11, 16, 23, 4, 11, 16, 23, 4, 11, 16, 23,
   6, 10, 15, 21, 6, 10, 15, 21, 6, 10, 15, 21, 6, 10, 15, 21]

/-- Decode a block of bytes into little-endian 32-bit words. -/
def toWords : List Nat → List Nat
  | b0 :: b1 :: b2 :: b3 :: rest =>
      (b0 + 256 * b1 + 65536 * b2 + 16777216 * b3) :: toWords rest
  | _ => []

/-- One MD5 round on the state (a, b, c, d). -/
def md5Round (M : List Nat) (i : Nat) : Nat × Nat × Nat × Nat → Nat × Nat × Nat × Nat
  | (a, b, c, d) =>
    let f :=
      if i < 16 then (b &&& c) ||| (mnot b &&& d)
      else if i < 32 then (d &&& b) ||| (mnot d &&& c)
      else if i < 48 then b ^^^ c ^^^ d
      else c ^^^ (b ||| mnot d)
    let g :=
      if i < 16 then i
      else if i < 32 then (5 * i + 1) % 16
      else if i < 48 then (3 * i + 5) % 16
      else (7 * i) % 16
    let t := (a + f + md5K.getD i 0 + M.getD g 0) % 2 ^ 32
    (d, (b + rotl32 t (md5S.getD i 0)) % 2 ^ 32, b, c)

/-- Process one 64-byte block, updating the running state. -/
def md5Block (block : List Nat) (st : Nat × Nat × Nat × Nat) : Nat × Nat × Nat × Nat :=
  let M := toWords block
  let r := (List.range 64).foldl (fun s i => md5Round M i s) st
  match st, r with
  | (a0, b0, c0, d0), (a, b, c, d) =>
    ((a0 + a) % 2 ^ 32, (b0 + b) % 2 ^ 32, (c0 + c) % 2 ^ 32, (d0 + d) % 2 ^ 32)

/-- Fold the MD5 compression function over all 64-byte blocks.  The
first argument is recursion fuel; any fuel at least the number of
blocks (the byte length suffices) processes every block. -/
def md5Blocks : Nat → List Nat → Nat × Nat × Nat × Nat → Nat × Nat × Nat × Nat
  | 0, _, st => st
  | _ + 1, [], st => st
  | fuel + 1, b :: rest, st =>
      md5Blocks fuel ((b :: rest).drop 64) (md5Block ((b :: rest).take 64) st)

/-- MD5 padding: append 0x80, zero bytes to 56 mod 64, then the
original bit length as a 64-bit little-endian quantity. -/
def md5Pad (bytes : List Nat) : List Nat :=
  let L := bytes.length
  let z := (120 - (L + 1) % 64) % 64
  let len64 := (L * 8) % 2 ^ 64
  bytes ++ [0x80] ++ List.replicate z 0 ++
    (List.range 8).map (fun i => (len64 >>> (8 * i)) &&& 0xFF)

/-- Hex digit characters. -/
def hexDigit (n : Nat) : Char :=
  "0123456789abcdef".toList.getD n '?'

/-- A byte as two lowercase hex characters. -/
def byteHex (n : Nat) : List Char :=
  [hexDigit (n / 16), hexDigit (n % 16)]

/-- A 32-bit word as its four little-endian bytes. -/
def wordBytesLE (w : Nat) : List Nat :=
  [w &&& 0xFF, (w >>> 8) &&& 0xFF, (w >>> 16) &&& 0xFF, (w >>> 24) &&& 0xFF]

/-- The full MD5 hex digest of a string (as `hashlib.md5(s.encode()).hexdigest()`). -/
def md5hex (s : String) : String :=
  let padded := md5Pad (utf8 s)
  let st := md5Blocks padded.length padded (0x67452301, 0xefcdab89, 0x98badcfe, 0x10325476)
  match st with
  | (a, b, c, d) =>
    String.mk (([a, b, c, d].flatMap wordBytesLE).flatMap byteHex)

/-- The first 12 hex characters of the MD5 digest, the id-derivation
used by the Facebook, Google Alerts, eBay and Alibaba crawlers:
`hashlib.md5(x.encode()).hexdigest()[:12]`. -/
def md5hex12 (s : String) : String :=
  (md5hex s).take 12

/-! ## Python string helpers used by the crawlers -/

/-- The suffix of `l` after the last occurrence of `sep`, mirroring
Python's `s.split(sep)[-1]` (the whole string when `sep` is absent). -/
def afterLast (sep : Char) (l : List Char) : List Char :=
  (l.reverse.takeWhile (fun c => c ≠ sep)).reverse

/-- The prefix of `l` before the first occurrence of `sep`, mirroring
Python's `s.split(sep)[0]`. -/
def beforeFirst (sep : Char) (l : List Char) : List Char :=
  l.takeWhile (fun c => c ≠ sep)

/-- Python's `s.rstrip(chars)`: remove every trailing character that is
a member of the character SET `chars` (not the suffix `chars`). -/
def pyRstrip (chars : List Char) (l : List Char) : List Char :=
  (l.reverse.dropWhile (fun c => c ∈ chars)).reverse

/-- Python whitespace characters stripped by `str.strip()`. -/
def pyWhitespace : List Char := [' ', '\t', '\n', '\r', '\x0b', '\x0c']

/-- Python's `s.strip()` (whitespace on both ends). -/
def pyStrip (s : String) : String :=
  String.mk (((s.toList.dropWhile (fun c => c ∈ pyWhitespace)).reverse.dropWhile
    (fun c => c ∈ pyWhitespace)).reverse)

/-! ## Per-crawler identity derivation and record construction

Each crawler parses markup into raw fields and builds an `Advert`.
The parsing of HTML/XML itself is the out-of-scope black box; the
embedding starts from the extracted raw fields (hrefs, titles, prices,
guids) and reproduces the id derivation and record construction
exactly. -/

/-- The character set `".html"` passed to `rstrip` by the OLX crawler. -/
def olxStripChars : List Char := ['.', 'h', 't', 'm', 'l']

/-- OLX link normalization: `a["href"].split("#")[0]`. -/
def olxLink (href : String) : String :=
  String.mk (beforeFirst '#' href.toList)

/-- OLX id derivation: `link.split("-")[-1].rstrip(".html")` applied to
the fragment-stripped link. -/
def olxAdvId (href : String) : String :=
  String.mk (pyRstrip olxStripChars (afterLast '-' (beforeFirst '#' href.toList)))

/-- OLX record: `Advert(adv_id, "OLX", title, price, link)`. -/
def olxAdvert (href title price : String) : Advert :=
  ⟨olxAdvId href, "OLX", title, price, olxLink href⟩

/-- Facebook record: id is `md5(link["href"])[:12]` of the RAW href,
title is the stripped post text truncated to 120 characters, and the
URL is `"https://m.facebook.com" + link["href"]`. -/
def fbAdvert (postText href : String) : Advert :=
  ⟨md5hex12 href, "Facebook", (pyStrip postText).take 120, "-",
    "https://m.facebook.com" ++ href⟩

/-- SEAP record: id is the stripped feed guid. -/
def seapAdvert (title guid link : String) : Advert :=
  ⟨pyStrip guid, "SEAP", title, "-", link⟩

/-- Agrobiznis record: id is `link.split("/")[-1]`. -/
def agroAdvert (title href : String) : Advert :=
  ⟨String.mk (afterLast '/' href.toList), "Agrobiznis", title, "-", href⟩

/-- Google Alerts record: id is `md5(link)[:12]` of the item link. -/
def googleAdvert (title link : String) : Advert :=
  ⟨md5hex12 link, "Google", title, "-", link⟩

/-- eBay record: id is `md5(link)[:12]` of the item link. -/
def ebayAdvert (link title price : String) : Advert :=
  ⟨md5hex12 link, "eBay", title, price, link⟩

/-- Alibaba link normalization: `f"https:{href}"` when the raw href
starts with `"//"`, else the raw href. -/
def alibabaLink (href : String) : String :=
  if href.startsWith "//" then "https:" ++ href else href

/-- Alibaba record: id is `md5(link)[:12]` of the normalized link. -/
def alibabaAdvert (href title : String) : Advert :=
  ⟨md5hex12 (alibabaLink href), "Alibaba", title, "-", alibabaLink href⟩

/-! ## The keyword pattern set

The `KEYWORDS` list of the source consists of regular expressions
built from literal characters, bracket character classes such as
`[ăa]`, and one optional class `[\- ]?`.  We embed exactly this
fragment: a pattern is a list of tokens, each a character class that
is either required or optional. -/

/-- A regex token: a character class, possibly optional (`?`). -/
structure Tok where
  chars : List Char
  opt : Bool
deriving DecidableEq, Repr

/-- Literal text as a token list. -/
def lit (s : String) : List Tok :=
  s.toList.map (fun c => ⟨[c], false⟩)

/-- A required character class `[...]`. -/
def cls (cs : List Char) : Tok := ⟨cs, false⟩

/-- An optional character class `[...]?`. -/
def optCls (cs : List Char) : Tok := ⟨cs, true⟩

/-- Does the token list match a prefix-free anchored occurrence at the
head of `cs`?  An optional token may be consumed or skipped. -/
def matchToks : List Tok → List Char → Bool
  | [], _ => true
  | t :: ts, [] => t.opt && matchToks ts []
  | t :: ts, c :: cs =>
      (t.chars.contains c && matchToks ts cs) || (t.opt && matchToks ts (c :: cs))

/-- Python `re.search` semantics for this fragment: the pattern matches
at some position of the text. -/
def searchToks (p : List Tok) : List Char → Bool
  | [] => matchToks p []
  | c :: cs => matchToks p (c :: cs) || searchToks p cs

/-- Case folding for `re.IGNORECASE`: ASCII letters plus the Romanian
diacritics appearing in the pattern set. -/
def ciLower (c : Char) : Char :=
  if 'A' ≤ c ∧ c ≤ 'Z' then Char.ofNat (c.toNat + 32)
  else if c = 'Ă' then 'ă'
  else if c = 'Â' then 'â'
  else if c = 'Î' then 'î'
  else if c = 'Ș' then 'ș'
  else if c = 'Ț' then 'ț'
  else c

/-- The buyer-intent pattern set `KEYWORDS` of the source, transcribed
pattern by pattern. -/
def KEYWORDS : List (List Tok) :=
  [lit "cump" ++ [cls ['ă', 'a']] ++ lit "r macese",
   lit "buy dried rosehip",
   lit "cump" ++ [cls ['ă', 'a']] ++ lit "r aronia uscat" ++ [cls ['ă', 'a']],
   lit "buy dried aronia",
   lit "buy dried chokeberry",
   lit "cump" ++ [cls ['ă', 'a']] ++ lit "r soc uscat",
   lit "buy dried elderberry",
   lit "cump" ++ [cls ['ă', 'a']] ++ lit "r c" ++ [cls ['ă', 'a']] ++ lit "tin" ++
     [cls ['ă', 'a']] ++ lit " uscat" ++ [cls ['ă', 'a']],
   lit "buy dried sea" ++ [optCls ['-', ' ']] ++ lit "buckthorn",
   lit "cump" ++ [cls ['ă', 'a']] ++ lit "r lavand" ++ [cls ['ă', 'a']] ++
     lit " uscat" ++ [cls ['ă', 'a']],
   lit "buy dried lavender",
   lit "cump" ++ [cls ['ă', 'a']] ++ lit "r cimbru uscat",
   lit "buy dried thyme"]

/-- Modelled from the spec: the source repository has no standalone
`KeywordPolicy.matches` function (its `KEYWORDS` list, embedded above
from the source, is only used to build search URL slugs), so the
spec's contract "returns true iff at least one pattern in the
configured set matches the text under case-insensitive semantics"
is modelled here over the source's `KEYWORDS`, with Python
`re.search(pattern, text, re.I)` semantics. -/
def policyMatches (text : String) : Bool :=
  KEYWORDS.any (fun p => searchToks p (text.toList.map ciLower))

/-! ## Notification wrapper `tg` -/

/-- Outcome of one `tg` call: skipped for missing credentials, sent,
or a swallowed (logged) network error. -/
inductive TgOutcome where
  | skipped
  | sent
  | failed (e : String)
deriving DecidableEq, Repr

/-- Environment of the Telegram wrapper: the `TG_TOKEN` / `TG_CHAT`
configuration and an oracle for the network outcome of posting a
given message. -/
structure TgEnv where
  token : String
  chat : String
  net : String → Except String Unit

/-- The `tg` function: skip with a warning when either credential is
empty (`if not TG_TOKEN or not TG_CHAT`), otherwise post and swallow
any error. -/
def tg (env : TgEnv) (msg : String) : TgOutcome :=
  if env.token = "" || env.chat = "" then .skipped
  else
    match env.net msg with
    | .ok _ => .sent
    | .error e => .failed e

/-- The notification text of `run_once`:
`f"📢 BUYER • {adv.platform}\n{adv.title}\n{adv.price}\n{adv.url}"`. -/
def fmtMsg (adv : Advert) : String :=
  "📢 BUYER • " ++ adv.platform ++ "\n" ++ adv.title ++ "\n" ++
    adv.price ++ "\n" ++ adv.url

/-! ## The coordinator `run_once` -/

/-- Result of the dedup-and-notify loop: the final seen set, the
notified adverts in order, the `tg` outcomes, and `new_count`. -/
structure ProcOut where
  seen : List String
  notified : List Advert
  outcomes : List TgOutcome
  newCount : Nat
deriving Repr

/-- The dedup-and-notify loop of `run_once` over a stream of adverts:
`if adv.adv_id in _seen: continue; _seen.add(adv.adv_id);
new_count += 1; tg(...)`. -/
def runAdverts (env : TgEnv) : List Advert → List String → ProcOut
  | [], seen => ⟨seen, [], [], 0⟩
  | adv :: rest, seen =>
    if adv.adv_id ∈ seen then runAdverts env rest seen
    else
      let r := runAdverts env rest (adv.adv_id :: seen)
      ⟨r.seen, adv :: r.notified, tg env (fmtMsg adv) :: r.outcomes, r.newCount + 1⟩

/-- One `try: ... except` unit of a crawler's generator body (one
URL x pattern iteration, or the whole body for the single-try
crawlers).  The crawlers are generators, so a unit may yield adverts
and THEN raise (e.g. a malformed element later in its loop): `yielded`
holds the adverts the unit produced before finishing or failing, and
`err` the error caught by the unit's `except` clause, if any. -/
structure FetchUnit where
  yielded : List Advert
  err : Option String
deriving DecidableEq, Repr

/-- One crawler's `crawl()` output as consumed by `run_once`: every
unit's pre-error yields, in order.  A caught error is logged and never
aborts the iteration, but the records already yielded by the failing
unit stand. -/
def crawlUnits : List FetchUnit → List Advert
  | [] => []
  | u :: rest => u.yielded ++ crawlUnits rest

/-- The advert stream of one run: every crawler's yielded adverts in
crawler order, as in `for crawler in ALL_CRAWLERS: for adv in
crawler.crawl()`. -/
def joinCrawl (crawlers : List (List FetchUnit)) : List Advert :=
  (crawlers.map crawlUnits).flatten

/-- The dedup-and-notify loop applied to all crawlers' adverts. -/
def runCrawlers (env : TgEnv) (crawlers : List (List FetchUnit))
    (seen : List String) : ProcOut :=
  runAdverts env (joinCrawl crawlers) seen

/-- The state of the `seen.json` snapshot before the run: absent, an
unreadable file, a file whose JSON fails to decode, or a valid list of
identities. -/
inductive SnapshotState where
  | missing
  | unreadable
  | corrupt
  | valid (ids : List String)

/-- Loading of the seen set:
`set(json.loads(SEEN_FILE.read_text()) if SEEN_FILE.exists() else [])`.
A missing file yields the empty set; a read or decode failure raises
(modelled as `Except.error`). -/
def loadSeen : SnapshotState → Except String (List String)
  | .missing => .ok []
  | .unreadable => .error "seen.json read error"
  | .corrupt => .error "seen.json decode error"
  | .valid ids => .ok ids

/-- Observable trace of one completed run: final seen set, notified
adverts, `tg` outcomes, `new_count`, the `last_alert.txt` write event
(with its timestamp content) and the result of persisting `seen.json`. -/
structure RunTrace where
  finalSeen : List String
  notified : List Advert
  outcomes : List TgOutcome
  newCount : Nat
  markerWrite : Option String
  persist : Except String (List String)

/-- The coordinator `run_once`: load the seen set (a load failure
propagates), process every crawler's adverts with dedup and
notification, write `last_alert.txt` with the current UTC time iff
`new_count` is nonzero, and persist the seen set (a write failure
propagates). -/
def run_once (env : TgEnv) (now : String) (snapshot : SnapshotState) (writeOk : Bool)
    (crawlers : List (List FetchUnit)) : Except String RunTrace :=
  match loadSeen snapshot with
  | .error e => .error e
  | .ok seen0 =>
    let st := runCrawlers env crawlers seen0
    .ok { finalSeen := st.seen, notified := st.notified, outcomes := st.outcomes,
          newCount := st.newCount,
          markerWrite := if st.newCount = 0 then none else some now,
          persist := if writeOk then .ok st.seen else .error "seen.json write error" }

/-- A sequence of runs, each starting from the seen set persisted by
the previous one; returns the final seen set and all notified adverts
across the runs. -/
def chainRuns (env : TgEnv) : List (List Advert) → List String → List String × List Advert
  | [], seen => (seen, [])
  | advs :: rest, seen =>
    let r := runAdverts env advs seen
    let c := chainRuns env rest r.seen
    (c.1, r.notified ++ c.2)

/-- The `last_alert.txt` write event of a run (none when the run
aborted on a load failure). -/
def markerOf : Except String RunTrace → Option String
  | .error _ => none
  | .ok tr => tr.markerWrite

/-- The `seen.json` persistence result of a run. -/
def persistOf : Except String RunTrace → Except String (List String)
  | .error e => .error e
  | .ok tr => tr.persist

/-- The notified adverts of a run. -/
def notifiedOf : Except String RunTrace → List Advert
  | .error _ => []
  | .ok tr => tr.notified

/-- The `tg` outcomes of a run. -/
def outcomesOf : Except String RunTrace → List TgOutcome
  | .error _ => []
  | .ok tr => tr.outcomes

/-- Everything in a run's trace except the `tg` outcomes: the dedup
state, notified records, counter, marker write and persistence result. -/
def stateProj : Except String RunTrace →
    Except String (List String × List Advert × Nat × Option String ×
      Except String (List String))
  | .error e => .error e
  | .ok tr => .ok (tr.finalSeen, tr.notified, tr.newCount, tr.markerWrite, tr.persist)

/-- Number of notifications among `l` for the identity `i`. -/
def countId (l : List Advert) (i : String) : Nat :=
  (l.filter (fun a => a.adv_id == i)).length

/-- A notification environment with no credentials and an always-ok
network oracle, used for concrete evaluations. -/
def tgEnv0 : TgEnv := ⟨"", "", fun _ => .ok ()⟩

/-- A concrete OLX-style advert used for concrete evaluations. -/
def advX : Advert :=
  ⟨"x1", "OLX", "Cumpar macese uscate", "10 lei",
    "https://www.olx.ro/oferta/cumpar-macese-x1"⟩

/-- A concrete eBay-style advert used for concrete evaluations. -/
def advY : Advert :=
  ⟨"y2", "eBay", "buy dried rosehip", "$5", "https://www.ebay.com/itm/y2"⟩

/-! ## Lemmas about the dedup-and-notify loop -/

lemma countId_nil (i : String) : countId [] i = 0 := rfl

lemma countId_cons (a : Advert) (l : List Advert) (i : String) :
    countId (a :: l) i = (if a.adv_id = i then 1 else 0) + countId l i := by
  by_cases h : a.adv_id = i <;> simp [countId, List.filter_cons, h, Nat.add_comm]

lemma countId_append (l1 l2 : List Advert) (i : String) :
    countId (l1 ++ l2) i = countId l1 i + countId l2 i := by
  simp [countId, List.filter_append]

/-- Membership in the seen set after the loop: an identity is seen
afterwards iff it was seen before or some processed advert carries it.
The platform of the adverts plays no role. -/
lemma runAdverts_seen_mem (env : TgEnv) (advs : List Advert) (s : List String)
    (i : String) :
    i ∈ (runAdverts env advs s).seen ↔ i ∈ s ∨ ∃ a ∈ advs, a.adv_id = i := by
  induction advs generalizing s with
  | nil => simp [runAdverts]
  | cons a rest ih =>
    by_cases h : a.adv_id ∈ s
    · simp only [runAdverts, if_pos h, ih, List.mem_cons]
      constructor
      · rintro (hs | ⟨b, hb, rfl⟩)
        · exact Or.inl hs
        · exact Or.inr ⟨b, Or.inr hb, rfl⟩
      · rintro (hs | ⟨b, hb, rfl⟩)
        · exact Or.inl hs
        · rcases hb with rfl | hb
          · exact Or.inl h
          · exact Or.inr ⟨b, hb, rfl⟩
    · simp only [runAdverts, if_neg h, ih, List.mem_cons]
      constructor
      · rintro ((rfl | hs) | ⟨b, hb, rfl⟩)
        · exact Or.inr ⟨a, Or.inl rfl, rfl⟩
        · exact Or.inl hs
        · exact Or.inr ⟨b, Or.inr hb, rfl⟩
      · rintro (hs | ⟨b, rfl | hb, rfl⟩)
        · exact Or.inl (Or.inr hs)
        · exact Or.inl (Or.inl rfl)
        · exact Or.inr ⟨b, hb, rfl⟩

/-- Exactly-once counting: the loop notifies an identity once when it
is fresh and carried by some advert, never otherwise. -/
lemma runAdverts_countId (env : TgEnv) (advs : List Advert) (s : List String)
    (i : String) :
    countId (runAdverts env advs s).notified i =
      if i ∈ s then 0 else if ∃ a ∈ advs, a.adv_id = i then 1 else 0 := by
  induction advs generalizing s with
  | nil => simp [runAdverts, countId_nil]
  | cons a rest ih =>
    by_cases h : a.adv_id ∈ s
    · rw [runAdverts, if_pos h, ih]
      by_cases his : i ∈ s
      · simp [his]
      · have hiff : (∃ x ∈ a :: rest, x.adv_id = i) ↔ ∃ x ∈ rest, x.adv_id = i := by
          constructor
          · rintro ⟨x, hx, rfl⟩
            rcases List.mem_cons.1 hx with rfl | hx
            · exact absurd h his
            · exact ⟨x, hx, rfl⟩
          · rintro ⟨x, hx, hxi⟩
            exact ⟨x, List.mem_cons_of_mem a hx, hxi⟩
        simp only [his, if_neg, if_false]
        rw [if_congr hiff rfl rfl]
    · have hrec := ih (a.adv_id :: s)
      simp only [runAdverts, if_neg h]
      rw [countId_cons, hrec]
      by_cases hai : a.adv_id = i
      · subst hai
        simp [h, List.mem_cons_self, show ∃ x ∈ a :: rest, x.adv_id = a.adv_id from
          ⟨a, List.mem_cons_self a rest, rfl⟩]
      · have hmem : i ∈ a.adv_id :: s ↔ i ∈ s := by
          rw [List.mem_cons]
          constructor
          · rintro (rfl | hs)
            · exact absurd rfl hai
            · exact hs
          · exact Or.inr
        have hiff : (∃ x ∈ a :: rest, x.adv_id = i) ↔ ∃ x ∈ rest, x.adv_id = i := by
          constructor
          · rintro ⟨x, hx, rfl⟩
            rcases List.mem_cons.1 hx with rfl | hx
            · exact absurd rfl hai
            · exact ⟨x, hx, rfl⟩
          · rintro ⟨x, hx, hxi⟩
            exact ⟨x, List.mem_cons_of_mem a hx, hxi⟩
        rw [if_neg hai, if_congr hmem rfl rfl, if_congr hiff rfl rfl]
        simp

/-- When every advert's identity is already seen, the loop does
nothing at all. -/
lemma runAdverts_all_seen (env : TgEnv) (advs : List Advert) (s : List String)
    (h : ∀ a ∈ advs, a.adv_id ∈ s) :
    runAdverts env advs s = ⟨s, [], [], 0⟩ := by
  induction advs with
  | nil => rfl
  | cons a rest ih =>
    rw [runAdverts, if_pos (h a (List.mem_cons_self a rest))]
    exact ih fun b hb => h b (List.mem_cons_of_mem a hb)

/-- Every processed advert's identity is in the final seen set. -/
lemma runAdverts_seen_of_mem (env : TgEnv) (advs : List Advert) (s : List String)
    (a : Advert) (ha : a ∈ advs) :
    a.adv_id ∈ (runAdverts env advs s).seen :=
  (runAdverts_seen_mem env advs s a.adv_id).2 (Or.inr ⟨a, ha, rfl⟩)

/-- Re-running the loop on the same adverts from the seen set it
produced notifies nothing. -/
lemma runAdverts_idem (env env2 : TgEnv) (advs : List Advert) (s : List String) :
    runAdverts env2 advs (runAdverts env advs s).seen =
      ⟨(runAdverts env advs s).seen, [], [], 0⟩ :=
  runAdverts_all_seen env2 advs _ fun a ha => runAdverts_seen_of_mem env advs s a ha

lemma runAdverts_newCount (env : TgEnv) (advs : List Advert) (s : List String) :
    (runAdverts env advs s).newCount = (runAdverts env advs s).notified.length := by
  induction advs generalizing s with
  | nil => rfl
  | cons a rest ih =>
    by_cases h : a.adv_id ∈ s <;> simp [runAdverts, h, ih]

lemma runAdverts_notified_nil (env : TgEnv) (advs : List Advert) (s : List String) :
    (runAdverts env advs s).notified = [] ↔ ∀ a ∈ advs, a.adv_id ∈ s := by
  induction advs generalizing s with
  | nil => simp [runAdverts]
  | cons a rest ih =>
    by_cases h : a.adv_id ∈ s
    · simp only [runAdverts, if_pos h, ih]
      constructor
      · intro hall b hb
        rcases List.mem_cons.1 hb with rfl | hb
        · exact h
        · exact hall b hb
      · intro hall b hb
        exact hall b (List.mem_cons_of_mem a hb)
    · have hcons : (runAdverts env (a :: rest) s).notified =
          a :: (runAdverts env rest (a.adv_id :: s)).notified := by
        simp [runAdverts, if_neg h]
      rw [hcons]
      refine iff_of_false (by simp) ?_
      intro hall
      exact h (hall a (List.mem_cons_self a rest))

/-- The seen set, notified list and counter do not depend on the
notification environment. -/
lemma runAdverts_env_proj (e1 e2 : TgEnv) (advs : List Advert) (s : List String) :
    (runAdverts e1 advs s).seen = (runAdverts e2 advs s).seen ∧
    (runAdverts e1 advs s).notified = (runAdverts e2 advs s).notified ∧
    (runAdverts e1 advs s).newCount = (runAdverts e2 advs s).newCount := by
  induction advs generalizing s with
  | nil => exact ⟨rfl, rfl, rfl⟩
  | cons a rest ih =>
    by_cases h : a.adv_id ∈ s
    · simpa [runAdverts, h] using ih s
    · have := ih (a.adv_id :: s)
      simp only [runAdverts, if_neg h]
      exact ⟨this.1, by rw [this.2.1], by rw [this.2.2]⟩

/-- The outcome list is the image of the notified list under `tg`. -/
lemma runAdverts_outcomes (env : TgEnv) (advs : List Advert) (s : List String) :
    (runAdverts env advs s).outcomes =
      (runAdverts env advs s).notified.map (fun a => tg env (fmtMsg a)) := by
  induction advs generalizing s with
  | nil => rfl
  | cons a rest ih =>
    by_cases h : a.adv_id ∈ s <;> simp [runAdverts, h, ih]

lemma tg_skipped_of_no_token (chat : String) (net : String → Except String Unit)
    (msg : String) : tg ⟨"", chat, net⟩ msg = .skipped := by
  simp [tg]

/-! ## Lemmas about crawler failure isolation -/

lemma crawlUnits_append (l1 l2 : List FetchUnit) :
    crawlUnits (l1 ++ l2) = crawlUnits l1 ++ crawlUnits l2 := by
  induction l1 with
  | nil => rfl
  | cons u rest ih => simp [crawlUnits, ih]

/-- The caught errors never influence the advert stream: erasing every
unit's error annotation leaves `crawl()`'s output unchanged. -/
lemma crawlUnits_erase_err (us : List FetchUnit) :
    crawlUnits (us.map (fun u => ⟨u.yielded, none⟩)) = crawlUnits us := by
  induction us with
  | nil => rfl
  | cons u rest ih => simp [crawlUnits, ih]

/-- A unit that fails before yielding anything contributes nothing. -/
lemma crawlUnits_barren_cons (e : String) (l : List FetchUnit) :
    crawlUnits (⟨[], some e⟩ :: l) = crawlUnits l := rfl

lemma crawlUnits_all_barren (errs : List String) :
    crawlUnits (errs.map (fun e => ⟨[], some e⟩)) = [] := by
  induction errs with
  | nil => rfl
  | cons e rest ih => simpa [crawlUnits] using ih

/-! ## Lemmas about Python rstrip -/

lemma dropWhile_append_of_all {p : Char → Bool} (l1 l2 : List Char)
    (h : ∀ c ∈ l1, p c = true) :
    (l1 ++ l2).dropWhile p = l2.dropWhile p := by
  induction l1 with
  | nil => rfl
  | cons a l ih =>
    rw [List.cons_append, List.dropWhile_cons, h a (List.mem_cons_self a l)]
    exact ih fun c hc => h c (List.mem_cons_of_mem a hc)

/-- `rstrip` with a character set ignores any appended run of
characters drawn from that set. -/
lemma pyRstrip_append (chars b s : List Char) (h : ∀ c ∈ s, c ∈ chars) :
    pyRstrip chars (b ++ s) = pyRstrip chars b := by
  unfold pyRstrip
  rw [List.reverse_append, dropWhile_append_of_all]
  intro c hc
  exact decide_eq_true (h c (List.mem_reverse.1 hc))

/-! ## Lemmas about chained runs -/

lemma chainRuns_countId (env : TgEnv) (rs : List (List Advert)) (s : List String)
    (i : String) :
    countId (chainRuns env rs s).2 i =
      if i ∈ s then 0 else if ∃ a ∈ rs.flatten, a.adv_id = i then 1 else 0 := by
  induction rs generalizing s with
  | nil => simp [chainRuns, countId_nil]
  | cons advs rest ih =>
    simp only [chainRuns]
    rw [countId_append, runAdverts_countId, ih]
    by_cases his : i ∈ s
    · have hseen : i ∈ (runAdverts env advs s).seen :=
        (runAdverts_seen_mem env advs s i).2 (Or.inl his)
      simp [his, hseen]
    · by_cases hadv : ∃ a ∈ advs, a.adv_id = i
      · have hseen : i ∈ (runAdverts env advs s).seen :=
          (runAdverts_seen_mem env advs s i).2 (Or.inr hadv)
        have hmem : ∃ a ∈ advs ++ rest.flatten, a.adv_id = i := by
          obtain ⟨a, ha, hai⟩ := hadv
          exact ⟨a, List.mem_append.2 (Or.inl ha), hai⟩
        rw [if_neg his, if_pos hadv, if_pos hseen, if_neg his, List.flatten_cons,
          if_pos hmem]
      · have hseen : i ∉ (runAdverts env advs s).seen := by
          rw [runAdverts_seen_mem]
          rintro (hs | hb)
          · exact his hs
          · exact hadv hb
        have hiff : (∃ a ∈ advs ++ rest.flatten, a.adv_id = i) ↔
            ∃ a ∈ rest.flatten, a.adv_id = i := by
          constructor
          · rintro ⟨a, ha, rfl⟩
            rcases List.mem_append.1 ha with ha | ha
            · exact absurd ⟨a, ha, rfl⟩ hadv
            · exact ⟨a, ha, rfl⟩
          · rintro ⟨a, ha, hai⟩
            exact ⟨a, List.mem_append.2 (Or.inr ha), hai⟩
        simp only [List.flatten_cons, his, if_neg, if_false, hadv, hseen]
        rw [if_congr hiff rfl rfl]
        simp

/-! ## Claims -/

/-- Claim C1, counterexample: the claim says dedup identity is the pair
(source, id) and that two records from different sources sharing the
same id string are each notified.  In `run_once` the check is
`if adv.adv_id in _seen` on the id alone: below, an OLX record and a
Facebook record share the id "42"; although no record with the
Facebook record's (source, id) pair was ever marked seen, only the OLX
record is notified and the Facebook record is suppressed. -/
theorem C1_counterexample :
    (Advert.mk "42" "OLX" "Cumpar macese" "-" "u1").platform ≠
      (Advert.mk "42" "Facebook" "Cumpar aronia" "-" "u2").platform ∧
    (Advert.mk "42" "OLX" "Cumpar macese" "-" "u1").adv_id =
      (Advert.mk "42" "Facebook" "Cumpar aronia" "-" "u2").adv_id ∧
    (runAdverts tgEnv0
      [Advert.mk "42" "OLX" "Cumpar macese" "-" "u1",
       Advert.mk "42" "Facebook" "Cumpar aronia" "-" "u2"] []).notified =
      [Advert.mk "42" "OLX" "Cumpar macese" "-" "u1"] := by
  decide

/-- Claim C1, amended: deduplication identity is the id string alone,
ignoring the source.  After a run, an identity is in the seen set iff
it was seen before or some processed record carries it (from any
source), and an identity is notified exactly once when fresh and
carried by some record, never otherwise — the record's platform plays
no role anywhere in the characterization. -/
theorem C1_dedup_identity_is_id_alone (env : TgEnv) (advs : List Advert)
    (s : List String) (i : String) :
    (i ∈ (runAdverts env advs s).seen ↔ i ∈ s ∨ ∃ a ∈ advs, a.adv_id = i) ∧
    countId (runAdverts env advs s).notified i =
      (if i ∈ s then 0 else if ∃ a ∈ advs, a.adv_id = i then 1 else 0) :=
  ⟨runAdverts_seen_mem env advs s i, runAdverts_countId env advs s i⟩

/-- Claim C2: across any sequence of runs chained through the persisted
seen set, at most one notification is ever emitted for any identity,
and re-running on the same advert stream from the seen set the first
run produced notifies nothing and counts zero new records. -/
theorem C2_at_most_once (env : TgEnv) (rs : List (List Advert)) (s0 : List String)
    (i : String) (advs : List Advert) (s : List String) :
    countId (chainRuns env rs s0).2 i ≤ 1 ∧
    (runAdverts env advs (runAdverts env advs s).seen).notified = [] ∧
    (runAdverts env advs (runAdverts env advs s).seen).newCount = 0 := by
  refine ⟨?_, ?_, ?_⟩
  · rw [chainRuns_countId]
    by_cases h1 : i ∈ s0
    · simp [h1]
    · rw [if_neg h1]
      by_cases h2 : ∃ a ∈ rs.flatten, a.adv_id = i
      · rw [if_pos h2]
      · rw [if_neg h2]
        exact Nat.zero_le 1
  · rw [runAdverts_idem env env advs s]
  · rw [runAdverts_idem env env advs s]

/-- Claim C3, counterexample: the claim says an adapter whose fetch
raises any error contributes zero records.  The crawlers are
generators whose `try` blocks contain the per-element loops with
their yields, so a unit that raises mid-loop (e.g. a malformed
element) has already handed its earlier yields to `run_once`: below,
the first crawler's single fetch unit yields `advX` and then raises;
the error is caught, yet `advX` is notified (together with the second
crawler's `advY`). -/
theorem C3_counterexample :
    crawlUnits [⟨[advX], some "AttributeError on a later element"⟩] = [advX] ∧
    (runCrawlers tgEnv0
      [[⟨[advX], some "AttributeError on a later element"⟩],
       [⟨[advY], none⟩]] []).notified = [advX, advY] := by
  decide

/-- Claim C3, amended: an error in one fetch unit of an adapter is
caught and aborts only the remainder of that unit.  The run's outcome
never depends on the caught errors at all (erasing every error
annotation changes nothing, so every other unit and adapter is
processed, deduplicated and notified identically); the records a
failing unit yielded before its error stand; a unit that fails before
yielding anything is equivalent to its absence and contributes zero
records; and an adapter all of whose units fail before yielding
contributes zero records. -/
theorem C3_failure_isolation (env : TgEnv) (s : List String)
    (cs cs1 cs2 : List (List FetchUnit)) (us1 us2 : List FetchUnit)
    (e : String) (errs : List String) :
    runCrawlers env (cs.map (fun us => us.map (fun u => ⟨u.yielded, none⟩))) s =
      runCrawlers env cs s ∧
    runCrawlers env (cs1 ++ (us1 ++ ⟨[], some e⟩ :: us2) :: cs2) s =
      runCrawlers env (cs1 ++ (us1 ++ us2) :: cs2) s ∧
    crawlUnits (errs.map (fun e2 => ⟨[], some e2⟩)) = [] := by
  refine ⟨?_, ?_, crawlUnits_all_barren errs⟩
  · have hmap : ∀ us : List FetchUnit,
        crawlUnits (us.map (fun u => ⟨u.yielded, none⟩)) = crawlUnits us :=
      crawlUnits_erase_err
    simp only [runCrawlers, joinCrawl, List.map_map, Function.comp_def]
    rw [List.map_congr_left fun us _ => hmap us]
  · have hX : crawlUnits (us1 ++ ⟨[], some e⟩ :: us2) = crawlUnits (us1 ++ us2) := by
      rw [crawlUnits_append, crawlUnits_append, crawlUnits_barren_cons]
    simp [runCrawlers, joinCrawl, hX]

/-- Claim C4: the `last_alert.txt` marker is written iff the run's
new-record counter is nonzero, and then with the current UTC time
`now`; the counter is zero exactly when every fetched record's
identity was already seen, so a run with zero new records performs no
marker write. -/
theorem C4_timestamp_gating (env : TgEnv) (now : String) (s : List String)
    (w : Bool) (cs : List (List FetchUnit)) :
    markerOf (run_once env now (.valid s) w cs) =
      (if (runCrawlers env cs s).newCount = 0 then none else some now) ∧
    ((runCrawlers env cs s).newCount = 0 ↔ ∀ a ∈ joinCrawl cs, a.adv_id ∈ s) := by
  constructor
  · rfl
  · show (runAdverts env (joinCrawl cs) s).newCount = 0 ↔ _
    rw [runAdverts_newCount, List.length_eq_zero, runAdverts_notified_nil]

/-- Claim C4, witness at a concrete input: a crawler yielding one fresh
record makes the run write the marker with the given time. -/
theorem C4_timestamp_gating_witness :
    markerOf (run_once tgEnv0 "2025-05-01T00:00:00" (.valid []) true [[⟨[advX], none⟩]]) =
      (if (runCrawlers tgEnv0 [[⟨[advX], none⟩]] []).newCount = 0 then none
        else some "2025-05-01T00:00:00") ∧
    ((runCrawlers tgEnv0 [[⟨[advX], none⟩]] []).newCount = 0 ↔
      ∀ a ∈ joinCrawl [[⟨[advX], none⟩]], a.adv_id ∈ ([] : List String)) :=
  C4_timestamp_gating tgEnv0 "2025-05-01T00:00:00" [] true [[⟨[advX], none⟩]]

/-- Claim C5: `KeywordPolicy.matches` (modelled from the spec over the
source's `KEYWORDS` pattern list) returns true iff at least one
pattern matches the text case-insensitively; in particular it accepts
"cumpăr macese uscate" and rejects "vând macese". -/
theorem C5_keyword_gate :
    policyMatches "cumpăr macese uscate" = true ∧
    policyMatches "vând macese" = false ∧
    ∀ t : String, (policyMatches t = true ↔
      ∃ p ∈ KEYWORDS, searchToks p (t.toList.map ciLower) = true) := by
  refine ⟨by decide, by decide, fun t => ?_⟩
  simp [policyMatches, List.any_eq_true]

/-- Claim C5, witness: the general contract instantiated at a concrete
text, together with the two concrete evaluations. -/
theorem C5_keyword_gate_witness :
    policyMatches "cumpăr macese uscate" = true ∧
    policyMatches "vând macese" = false ∧
    (policyMatches "buy dried thyme" = true ↔
      ∃ p ∈ KEYWORDS, searchToks p ("buy dried thyme".toList.map ciLower) = true) :=
  ⟨C5_keyword_gate.1, C5_keyword_gate.2.1, C5_keyword_gate.2.2 "buy dried thyme"⟩

/-- Claim C6: the dedup state, notified records, counter, marker write
and persistence of a run are identical for any two notification
environments (so notify success, failure or skip never affects them);
every fetched record's identity ends up in the seen set; and with the
token credential absent every notification degrades to a skip while
the run still completes and persists the seen set. -/
theorem C6_notify_never_affects_dedup (e1 e2 : TgEnv) (now : String)
    (s : List String) (w : Bool) (cs : List (List FetchUnit))
    (chat : String) (net : String → Except String Unit) :
    stateProj (run_once e1 now (.valid s) w cs) =
      stateProj (run_once e2 now (.valid s) w cs) ∧
    (∀ a ∈ joinCrawl cs, a.adv_id ∈ (runCrawlers e1 cs s).seen) ∧
    outcomesOf (run_once ⟨"", chat, net⟩ now (.valid s) w cs) =
      (notifiedOf (run_once ⟨"", chat, net⟩ now (.valid s) w cs)).map
        (fun _ => TgOutcome.skipped) ∧
    persistOf (run_once ⟨"", chat, net⟩ now (.valid s) true cs) =
      .ok (runCrawlers ⟨"", chat, net⟩ cs s).seen := by
  have hp := runAdverts_env_proj e1 e2 (joinCrawl cs) s
  refine ⟨?_, ?_, ?_, rfl⟩
  · simp only [run_once, loadSeen, stateProj, runCrawlers, hp.1, hp.2.1, hp.2.2]
  · exact fun a ha => runAdverts_seen_of_mem e1 (joinCrawl cs) s a ha
  · show (runCrawlers ⟨"", chat, net⟩ cs s).outcomes =
      (runCrawlers ⟨"", chat, net⟩ cs s).notified.map (fun _ => TgOutcome.skipped)
    rw [runCrawlers, runAdverts_outcomes]
    exact List.map_congr_left fun a _ => tg_skipped_of_no_token chat net (fmtMsg a)

/-- Claim C6, witness at a concrete input: one fresh record, no
credentials, a failing network oracle on one side. -/
theorem C6_notify_never_affects_dedup_witness :
    stateProj (run_once (TgEnv.mk "tok" "chat" (fun _ => .error "telegram down"))
        "t0" (.valid []) true [[⟨[advX], none⟩]]) =
      stateProj (run_once tgEnv0 "t0" (.valid []) true [[⟨[advX], none⟩]]) ∧
    (∀ a ∈ joinCrawl [[⟨[advX], none⟩]],
      a.adv_id ∈ (runCrawlers (TgEnv.mk "tok" "chat" (fun _ => .error "telegram down"))
        [[⟨[advX], none⟩]] []).seen) ∧
    outcomesOf (run_once ⟨"", "chat", fun _ => .ok ()⟩ "t0" (.valid []) true
        [[⟨[advX], none⟩]]) =
      (notifiedOf (run_once ⟨"", "chat", fun _ => .ok ()⟩ "t0" (.valid []) true
        [[⟨[advX], none⟩]])).map (fun _ => TgOutcome.skipped) ∧
    persistOf (run_once ⟨"", "chat", fun _ => .ok ()⟩ "t0" (.valid []) true
        [[⟨[advX], none⟩]]) =
      .ok (runCrawlers ⟨"", "chat", fun _ => .ok ()⟩ [[⟨[advX], none⟩]] []).seen :=
  C6_notify_never_affects_dedup
    (TgEnv.mk "tok" "chat" (fun _ => .error "telegram down")) tgEnv0
    "t0" [] true [[⟨[advX], none⟩]] "chat" (fun _ => .ok ())

set_option maxRecDepth 10000 in
set_option maxHeartbeats 4000000 in
/-- Claim C7: identity derivation is deterministic because each
adapter's id is a pure function of its raw payload fields, exhibited
by the derivation equations below (OLX: URL-suffix slicing; Facebook,
Google, eBay, Alibaba: truncated MD5 of the link; SEAP: feed guid;
Agrobiznis: URL segment), and the hash derivation yields a definite
value on a concrete input. -/
theorem C7_id_determinism (href postText title price guid link : String) :
    (olxAdvert href title price).adv_id = olxAdvId href ∧
    (fbAdvert postText href).adv_id = md5hex12 href ∧
    (seapAdvert title guid link).adv_id = pyStrip guid ∧
    (agroAdvert title href).adv_id = String.mk (afterLast '/' href.toList) ∧
    (googleAdvert title link).adv_id = md5hex12 link ∧
    (ebayAdvert link title price).adv_id = md5hex12 link ∧
    (alibabaAdvert href title).adv_id = md5hex12 (alibabaLink href) ∧
    md5hex12 "https://example.com/item" = "7b6cb5716bfd" :=
  ⟨by simp only [olxAdvert], by simp only [fbAdvert], by simp only [seapAdvert],
   by simp only [agroAdvert], by simp only [googleAdvert], by simp only [ebayAdvert],
   by simp only [alibabaAdvert], by decide⟩

/-- Claim C7, witness at concrete raw payload fields. -/
theorem C7_id_determinism_witness :
    (olxAdvert "/g/1" "t" "-").adv_id = olxAdvId "/g/1" ∧
    (fbAdvert "t" "/g/1").adv_id = md5hex12 "/g/1" ∧
    (seapAdvert "t" " g1 " "u1").adv_id = pyStrip " g1 " ∧
    (agroAdvert "t" "/g/1").adv_id = String.mk (afterLast '/' "/g/1".toList) ∧
    (googleAdvert "t" "u1").adv_id = md5hex12 "u1" ∧
    (ebayAdvert "u1" "t" "-").adv_id = md5hex12 "u1" ∧
    (alibabaAdvert "/g/1" "t").adv_id = md5hex12 (alibabaLink "/g/1") ∧
    md5hex12 "https://example.com/item" = "7b6cb5716bfd" :=
  C7_id_determinism "/g/1" "t" "t" "-" " g1 " "u1"

/-- Claim C8: a missing `seen.json` loads as the empty set without
error, while a read error, a decode error or a write error is fatal
and propagates instead of silently proceeding; with a readable
snapshot and a successful write the final seen set is persisted. -/
theorem C8_seen_store_io (env : TgEnv) (now : String) (w : Bool)
    (cs : List (List FetchUnit)) (s : List String) :
    loadSeen .missing = .ok [] ∧
    loadSeen .unreadable = .error "seen.json read error" ∧
    loadSeen .corrupt = .error "seen.json decode error" ∧
    run_once env now .unreadable w cs = .error "seen.json read error" ∧
    run_once env now .corrupt w cs = .error "seen.json decode error" ∧
    persistOf (run_once env now (.valid s) false cs) =
      .error "seen.json write error" ∧
    persistOf (run_once env now (.valid s) true cs) =
      .ok (runCrawlers env cs s).seen :=
  ⟨rfl, rfl, rfl, rfl, rfl, rfl, rfl⟩

set_option maxRecDepth 10000 in
set_option maxHeartbeats 4000000 in
/-- Claim C9, counterexample: the claim says the hash-based id is the
MD5 of the record's URL.  For the Facebook crawler the id is the MD5
of the RAW href while the record's URL is the href with
"https://m.facebook.com" prepended, so the id differs from the MD5 of
the record's URL (both digests computed concretely below). -/
theorem C9_counterexample :
    (fbAdvert "Cumpăr macese uscate" "/groups/987/permalink/1").url =
      "https://m.facebook.com/groups/987/permalink/1" ∧
    (fbAdvert "Cumpăr macese uscate" "/groups/987/permalink/1").adv_id =
      "ba494c3f44e9" ∧
    md5hex12 "https://m.facebook.com/groups/987/permalink/1" = "724eeb004570" ∧
    (fbAdvert "Cumpăr macese uscate" "/groups/987/permalink/1").adv_id ≠
      md5hex12 ((fbAdvert "Cumpăr macese uscate" "/groups/987/permalink/1").url) := by
  decide

/-- Claim C9, amended: for Google Alerts, eBay and Alibaba the id is
the first 12 hex characters of the MD5 of the record's URL; for
Facebook it is the first 12 hex characters of the MD5 of the raw href
(the record's URL being the href with the mobile-site prefix
prepended).  In all four, the id depends on the link alone, so two raw
items with the same link and different titles or prices get equal ids
and only the first is notified. -/
theorem C9_hash_id_from_link (env : TgEnv) (t1 t2 p1 p2 href postText1 postText2
    link : String) :
    (googleAdvert t1 link).adv_id = md5hex12 ((googleAdvert t1 link).url) ∧
    (ebayAdvert link t1 p1).adv_id = md5hex12 ((ebayAdvert link t1 p1).url) ∧
    (alibabaAdvert href t1).adv_id = md5hex12 ((alibabaAdvert href t1).url) ∧
    (fbAdvert postText1 href).adv_id = md5hex12 href ∧
    (fbAdvert postText1 href).adv_id = (fbAdvert postText2 href).adv_id ∧
    (googleAdvert t1 link).adv_id = (googleAdvert t2 link).adv_id ∧
    (ebayAdvert link t1 p1).adv_id = (ebayAdvert link t2 p2).adv_id ∧
    (alibabaAdvert href t1).adv_id = (alibabaAdvert href t2).adv_id ∧
    (runAdverts env [ebayAdvert link t1 p1, ebayAdvert link t2 p2] []).notified =
      [ebayAdvert link t1 p1] := by
  refine ⟨by simp only [googleAdvert], by simp only [ebayAdvert],
    by simp only [alibabaAdvert], by simp only [fbAdvert], by simp only [fbAdvert],
    by simp only [googleAdvert], by simp only [ebayAdvert],
    by simp only [alibabaAdvert], ?_⟩
  have hid : (ebayAdvert link t2 p2).adv_id = (ebayAdvert link t1 p1).adv_id := by
    simp only [ebayAdvert]
  have hall : ∀ a ∈ [ebayAdvert link t2 p2],
      a.adv_id ∈ [(ebayAdvert link t1 p1).adv_id] := by
    intro a ha
    rw [List.mem_singleton] at ha
    subst ha
    rw [hid]
    exact List.mem_singleton.2 rfl
  have hrest := runAdverts_all_seen env [ebayAdvert link t2 p2]
    [(ebayAdvert link t1 p1).adv_id] hall
  rw [runAdverts, if_neg (List.not_mem_nil _)]
  simp only [hrest]

/-- Claim C10: the OLX id strips a trailing character SET, not the
suffix ".html": links whose final hyphen-separated segments share a
stem and differ only in trailing characters drawn from
{'.', 'h', 't', 'm', 'l'} derive the same id and so share one
identity. -/
theorem C10_olx_id_strips_charset (l1 l2 : String) (b s1 s2 : List Char)
    (h1 : ∀ c ∈ s1, c ∈ olxStripChars) (h2 : ∀ c ∈ s2, c ∈ olxStripChars)
    (e1 : afterLast '-' (beforeFirst '#' l1.toList) = b ++ s1)
    (e2 : afterLast '-' (beforeFirst '#' l2.toList) = b ++ s2) :
    olxAdvId l1 = olxAdvId l2 := by
  unfold olxAdvId
  rw [e1, e2, pyRstrip_append _ _ _ h1, pyRstrip_append _ _ _ h2]

/-- Claim C10, witness: two links whose final segments end in "9h"
resp. "9l" collapse to the same id "abc9". -/
theorem C10_olx_id_strips_charset_witness :
    olxAdvId "https://www.olx.ro/oferta/cumpar-macese-abc9h" =
      olxAdvId "https://www.olx.ro/oferta/cumpar-macese-abc9l" ∧
    olxAdvId "https://www.olx.ro/oferta/cumpar-macese-abc9h" = "abc9" :=
  ⟨C10_olx_id_strips_charset _ _ "abc9".toList ['h'] ['l']
      (by decide) (by decide) (by decide) (by decide),
    by decide⟩

end WildBerry
